import Mathlib

/-!
Verification of the authentication and authorization flow of the Key2Key
backend (app/core/auth.py, app/core/security.py, app/core/jwt.py,
app/services/user_service.py).

The embedding models:
* user records and the credential store (app/models/user.py, the
  user_service lookups) as a list of records;
* the passlib bcrypt context and the jose JWT library, which are external
  collaborators of the repository, from the contracts the specification
  gives for them (ideal salted hashing; signature plus expiry checking);
* the auth functions of app/core/auth.py and app/core/jwt.py translated
  statement by statement, with raised HTTPException modelled as the error
  side of Except and wall-clock time passed explicitly in seconds.
-/

namespace Key2Key

/-- Modelled from the spec: the domain of stored password-hash strings of
the passlib bcrypt context (an external library, not part of this
repository). A stored hash string is either a well-formed bcrypt digest,
carrying its random salt and the digest of the password it hashes (the
hash is ideal: together with the salt the digest determines the
password, matching the spec's properties in section 8), or any other,
malformed string. -/
inductive HashStr where
  | bcrypt (salt : Nat) (digest : String) : HashStr
  | malformed (raw : String) : HashStr
deriving DecidableEq

/-- Modelled from the spec: pwd_context.hash of the passlib bcrypt
context. The salt argument makes the salt randomization explicit: each
call draws a fresh random salt that is embedded in the output. -/
def pwd_context_hash (salt : Nat) (password : String) : HashStr :=
  HashStr.bcrypt salt password

/-- Modelled from the spec: pwd_context.verify of the passlib bcrypt
context. On a recognizable bcrypt hash it recomputes the digest with the
embedded salt and compares; on a malformed stored hash passlib raises
ValueError, modelled as the error side of Except. -/
def pwd_context_verify (password : String) (hashed : HashStr) : Except String Bool :=
  match hashed with
  | HashStr.bcrypt salt digest =>
      Except.ok (pwd_context_hash salt password == HashStr.bcrypt salt digest)
  | HashStr.malformed _ => Except.error "ValueError"

/-- app/core/security.py verify_password: delegates to pwd_context.verify
and catches ValueError, returning false for a malformed stored hash. -/
def verify_password (plain_password : String) (hashed_password : HashStr) : Bool :=
  match pwd_context_verify plain_password hashed_password with
  | Except.ok b => b
  | Except.error _ => false

/-- app/core/security.py get_password_hash: delegates to
pwd_context.hash; the salt argument is the fresh random salt passlib
draws for this call. -/
def get_password_hash (salt : Nat) (password : String) : HashStr :=
  pwd_context_hash salt password

/-- A user record, the fields of app/models/user.py used by the auth
flow: uuid primary key (rendered as a string), unique email, full name,
role, the account-verified flag and the stored password hash. -/
structure User where
  id : String
  email : String
  full_name : String
  role : String
  verified : Bool
  password_hash : HashStr
deriving DecidableEq

/-- The external credential store: the users table reached through the
user_service query interface. -/
structure DB where
  users : List User
deriving DecidableEq

/-- Well-formedness of the store as the schema guarantees it: primary
keys are uuids, so they render as nonempty strings. -/
def DB.wf (db : DB) : Prop :=
  ∀ u ∈ db.users, u.id ≠ ""

instance (db : DB) : Decidable db.wf := by
  unfold DB.wf; infer_instance

/-- app/services/user_service.py get_user_by_email: select the user
record whose email column equals the argument. -/
def get_user_by_email (db : DB) (email : String) : Option User :=
  db.users.find? (fun u => u.email == email)

/-- app/services/user_service.py get_user_by_id: select the user record
whose id column equals the argument. -/
def get_user_by_id (db : DB) (user_id : String) : Option User :=
  db.users.find? (fun u => u.id == user_id)

/-- JWT claims payload: the dictionary carried by a token, with the keys
the code uses (sub, email) and the expiry timestamp exp set by
create_access_token, in seconds. -/
structure Claims where
  sub : Option String
  email : Option String
  exp : Option Nat
deriving DecidableEq

/-- Modelled from the spec: a token of the jose JWT library (an external
library). A token either carries a claims payload signed with some key,
or is a malformed string that does not parse as a JWT at all. The
symmetric signature is modelled by recording the signing key. -/
inductive JwtToken where
  | signed (claims : Claims) (key : String) : JwtToken
  | malformed (raw : String) : JwtToken
deriving DecidableEq

/-- Outcome of jose jwt.decode: the decoded claims, or one of the two
error classes the library raises. ExpiredSignatureError is a subclass of
JWTError, so an except clause for JWTError catches both. -/
inductive JoseResult where
  | ok (claims : Claims) : JoseResult
  | expiredSignatureError : JoseResult
  | jwtError : JoseResult
deriving DecidableEq

/-- True for the outcomes an except clause for JWTError catches. -/
def JoseResult.isError : JoseResult → Bool
  | JoseResult.ok _ => false
  | JoseResult.expiredSignatureError => true
  | JoseResult.jwtError => true

/-- Modelled from the spec: jose jwt.decode. Per the spec invariant in
section 3, a token is valid if and only if its signature verifies
against the server's secret key and now is strictly before expires_at; a
malformed token or a signature made with a different key raises
JWTError, an expired token raises ExpiredSignatureError, and ordinary
errors never crash the caller beyond these exception classes. A payload
without an exp claim is not expiry-checked. -/
def jose_decode (token : JwtToken) (secret : String) (now : Nat) : JoseResult :=
  match token with
  | JwtToken.malformed _ => JoseResult.jwtError
  | JwtToken.signed claims key =>
      if key = secret then
        match claims.exp with
        | some e => if now < e then JoseResult.ok claims else JoseResult.expiredSignatureError
        | none => JoseResult.ok claims
      else JoseResult.jwtError

/-- Modelled from the spec: jose jwt.encode signs the payload with the
given key. -/
def jose_encode (claims : Claims) (secret : String) : JwtToken :=
  JwtToken.signed claims secret

/-- The slice of app/core/config.py Settings the auth flow reads. -/
structure Settings where
  SECRET_KEY : String
deriving DecidableEq

/-- app/core/auth.py ACCESS_TOKEN_EXPIRE_MINUTES. -/
def ACCESS_TOKEN_EXPIRE_MINUTES : Nat := 10030

/-- A raised fastapi HTTPException: status code, detail message and the
optional WWW-Authenticate response header. -/
structure HTTPException where
  status_code : Nat
  detail : String
  www_authenticate : Option String
deriving DecidableEq

/-- app/core/auth.py authenticate_user: look up the credential by email;
fail when no record exists, when the record is not verified, or when the
password does not verify against the stored hash; otherwise return the
user. -/
def authenticate_user (db : DB) (email password : String) : Option User :=
  match get_user_by_email db email with
  | none => none
  | some user =>
      if !user.verified then none
      else if !(verify_password password user.password_hash) then none
      else some user

/-- app/core/auth.py create_access_token: copy the data payload, compute
the expiry instant now plus expires_delta (falling back to the
configured default lifetime), store it under exp, and sign with the
server's secret key. Time and deltas are in seconds. -/
def create_access_token (settings : Settings) (now : Nat) (data : Claims)
    (expires_delta : Option Nat) : JwtToken :=
  let expire :=
    match expires_delta with
    | some d => now + d
    | none => now + ACCESS_TOKEN_EXPIRE_MINUTES * 60
  jose_encode { sub := data.sub, email := data.email, exp := some expire } settings.SECRET_KEY

/-- The uniform 401 raised by get_current_user. -/
def credentials_exception : HTTPException :=
  { status_code := 401
    detail := "Could not validate credentials"
    www_authenticate := some "Bearer" }

/-- app/core/auth.py get_current_user: the per-request identity
resolver. The credentials argument models the HTTPBearer dependency with
auto_error disabled: none when no bearer credentials were supplied.
Decode failures (JWTError, covering malformed, bad signature and
expired), a missing or empty sub claim, and an unknown subject id all
raise the same credentials_exception; otherwise the resolved user is
returned. -/
def get_current_user (settings : Settings) (db : DB) (now : Nat)
    (credentials : Option JwtToken) : Except HTTPException User :=
  match credentials with
  | none => Except.error credentials_exception
  | some cred =>
      match jose_decode cred settings.SECRET_KEY now with
      | JoseResult.ok payload =>
          match payload.sub with
          | none => Except.error credentials_exception
          | some s =>
              if s = "" then Except.error credentials_exception
              else
                match get_user_by_id db s with
                | none => Except.error credentials_exception
                | some user => Except.ok user
      | JoseResult.expiredSignatureError => Except.error credentials_exception
      | JoseResult.jwtError => Except.error credentials_exception

/-- app/core/auth.py get_current_active_user: the second-stage guard over
an already resolved user. -/
def get_current_active_user (current_user : User) : Except HTTPException User :=
  if !current_user.verified then
    Except.error { status_code := 400, detail := "Inactive user", www_authenticate := none }
  else Except.ok current_user

/-- app/core/auth.py verify_token: decode without database access,
returning the payload, or the empty dictionary (modelled as none) on any
JWTError. -/
def verify_token (settings : Settings) (now : Nat) (token : JwtToken) : Option Claims :=
  match jose_decode token settings.SECRET_KEY now with
  | JoseResult.ok payload => some payload
  | JoseResult.expiredSignatureError => none
  | JoseResult.jwtError => none

/-- app/core/auth.py UserAuth: the public user summary returned by
login. -/
structure UserAuth where
  id : String
  email : String
  full_name : String
  role : String
  is_active : Bool
deriving DecidableEq

/-- The success value of login_user: access token, token type and public
user summary. -/
structure LoginResponse where
  access_token : JwtToken
  token_type : String
  user : UserAuth
deriving DecidableEq

/-- app/core/auth.py login_user: authenticate the credentials, raising a
uniform 401 on failure; on success issue an access token carrying sub
and email with the configured lifetime and return it with token type
bearer and the public user summary (is_active mirrors the verified
flag). -/
def login_user (settings : Settings) (db : DB) (now : Nat)
    (email password : String) : Except HTTPException LoginResponse :=
  match authenticate_user db email password with
  | none =>
      Except.error
        { status_code := 401
          detail := "Incorrect email or password"
          www_authenticate := some "Bearer" }
  | some user =>
      let access_token_expires := ACCESS_TOKEN_EXPIRE_MINUTES * 60
      let access_token :=
        create_access_token settings now
          { sub := some user.id, email := some user.email, exp := none }
          (some access_token_expires)
      Except.ok
        { access_token := access_token
          token_type := "bearer"
          user :=
            { id := user.id
              email := user.email
              full_name := user.full_name
              role := user.role
              is_active := user.verified } }

/-- app/core/jwt.py decode_access_token: decode and validate a token,
raising a single uniform 401 HTTPException on any JWTError (signature
failure, malformed token, or expiry). -/
def decode_access_token (settings : Settings) (now : Nat)
    (token : JwtToken) : Except HTTPException Claims :=
  match jose_decode token settings.SECRET_KEY now with
  | JoseResult.ok payload => Except.ok payload
  | JoseResult.expiredSignatureError =>
      Except.error
        { status_code := 401
          detail := "Invalid token or token signature"
          www_authenticate := some "Bearer" }
  | JoseResult.jwtError =>
      Except.error
        { status_code := 401
          detail := "Invalid token or token signature"
          www_authenticate := some "Bearer" }

end Key2Key

namespace Key2Key

/-- A concrete verified sample user for concrete evaluations. -/
def aliceUser : User :=
  { id := "u1"
    email := "alice@example.com"
    full_name := "Alice A"
    role := "buyer"
    verified := true
    password_hash := get_password_hash 7 "secret123" }

/-- A store holding the sample user. -/
def sampleDB : DB := { users := [aliceUser] }

/-- Helper: a successful authenticate_user call found the user by email,
the user is verified, and the password verified against the stored
hash. -/
theorem authenticate_user_eq_some {db : DB} {email password : String} {user : User}
    (h : authenticate_user db email password = some user) :
    get_user_by_email db email = some user ∧ user.verified = true ∧
      verify_password password user.password_hash = true := by
  unfold authenticate_user at h
  cases hfind : get_user_by_email db email with
  | none => rw [hfind] at h; cases h
  | some u =>
    rw [hfind] at h
    by_cases hv : u.verified = true
    · by_cases hp : verify_password password u.password_hash = true
      · simp [hv, hp] at h
        subst h
        exact ⟨rfl, hv, hp⟩
      · simp [hv, hp] at h
    · simp [hv] at h

end Key2Key

namespace Key2Key

/-- Claim C5: for all plaintext passwords p1 and p2 and every salt,
verify_password applied to p1 and the hash get_password_hash produced
for p2 returns true if and only if p1 equals p2: verifying the hashed
plaintext succeeds and verifying any different plaintext fails. -/
theorem verify_password_hash_iff (salt : Nat) (p1 p2 : String) :
    verify_password p1 (get_password_hash salt p2) = true ↔ p1 = p2 := by
  simp [verify_password, get_password_hash, pwd_context_verify, pwd_context_hash]

/-- Claim C8: for every resolved user, get_current_active_user raises
the 400 bad-request error with detail Inactive user exactly when the
user's verified flag is false, and otherwise returns the resolved user
unchanged; the 400 error carries no WWW-Authenticate challenge, a
distinct error class from the 401 authentication failures. -/
theorem get_current_active_user_spec (user : User) :
    get_current_active_user user =
      (if user.verified = true then Except.ok user
       else Except.error
         { status_code := 400, detail := "Inactive user", www_authenticate := none }) := by
  unfold get_current_active_user
  cases hv : user.verified <;> simp [hv]

/-- Claim C9: verify_password is a total Boolean function in the
embedding, which models that it never raises; on a stored hash that is
not a valid bcrypt hash the underlying passlib call raises ValueError
and verify_password catches it and returns false. -/
theorem verify_password_malformed_false (plain raw : String) :
    pwd_context_verify plain (HashStr.malformed raw) = Except.error "ValueError" ∧
    verify_password plain (HashStr.malformed raw) = false :=
  ⟨rfl, rfl⟩

/-- Claim C1: the three login failure causes, no user record with the
email, a user record whose verified flag is false (even when the
password is correct), and a user record whose stored hash does not
verify against the password, all make login_user raise the identical
HTTP 401 with detail Incorrect email or password and a WWW-Authenticate
Bearer header. -/
theorem login_user_failure_uniform (settings : Settings) (db : DB) (now : Nat)
    (email password : String)
    (h : get_user_by_email db email = none ∨
         (∃ u, get_user_by_email db email = some u ∧ u.verified = false) ∨
         (∃ u, get_user_by_email db email = some u ∧
            verify_password password u.password_hash = false)) :
    login_user settings db now email password =
      Except.error
        { status_code := 401
          detail := "Incorrect email or password"
          www_authenticate := some "Bearer" } := by
  have hauth : authenticate_user db email password = none := by
    unfold authenticate_user
    rcases h with h | ⟨u, hu, hv⟩ | ⟨u, hu, hp⟩
    · rw [h]
    · rw [hu]; simp [hv]
    · rw [hu]; cases hv : u.verified <;> simp [hv, hp]
  unfold login_user
  rw [hauth]

/-- Concrete instantiation of login_user_failure_uniform: a login
attempt against an empty store fails with the uniform 401. -/
theorem login_user_failure_uniform_witness :
    login_user { SECRET_KEY := "k" } { users := [] } 0 "alice@example.com" "secret123" =
      Except.error
        { status_code := 401
          detail := "Incorrect email or password"
          www_authenticate := some "Bearer" } :=
  login_user_failure_uniform { SECRET_KEY := "k" } { users := [] } 0
    "alice@example.com" "secret123" (Or.inl rfl)

end Key2Key

namespace Key2Key

/-- Claim C2: get_current_user raises the same HTTP 401 error with
detail Could not validate credentials and a WWW-Authenticate Bearer
header in all of these cases: no credentials supplied, a token whose
decode raises JWTError (malformed token, signature made with a different
or re-signing key, or expired token), a decoded payload whose sub claim
is missing or empty, and a decoded sub that matches no user record. -/
theorem get_current_user_rejections (settings : Settings) (db : DB) (now : Nat)
    (credentials : Option JwtToken)
    (h : credentials = none ∨
         (∃ tok, credentials = some tok ∧
            (jose_decode tok settings.SECRET_KEY now).isError = true) ∨
         (∃ tok claims, credentials = some tok ∧
            jose_decode tok settings.SECRET_KEY now = JoseResult.ok claims ∧
            (claims.sub = none ∨ claims.sub = some "")) ∨
         (∃ tok claims s, credentials = some tok ∧
            jose_decode tok settings.SECRET_KEY now = JoseResult.ok claims ∧
            claims.sub = some s ∧ get_user_by_id db s = none)) :
    get_current_user settings db now credentials = Except.error credentials_exception := by
  unfold get_current_user
  rcases h with h | ⟨tok, htok, herr⟩ | ⟨tok, claims, htok, hdec, hsub⟩ |
    ⟨tok, claims, s, htok, hdec, hsub, hdb⟩
  · rw [h]
  · subst htok
    cases hd : jose_decode tok settings.SECRET_KEY now with
    | ok claims => rw [hd] at herr; simp [JoseResult.isError] at herr
    | expiredSignatureError => simp [hd]
    | jwtError => simp [hd]
  · subst htok
    rcases hsub with hs | hs <;> simp [hdec, hs]
  · subst htok
    by_cases hse : s = ""
    · simp [hdec, hsub, hse]
    · simp [hdec, hsub, hse, hdb]

/-- Concrete instantiation of get_current_user_rejections: a request
with no bearer credentials is rejected with the uniform 401. -/
theorem get_current_user_rejections_witness :
    get_current_user { SECRET_KEY := "k" } { users := [] } 0 none =
      Except.error credentials_exception :=
  get_current_user_rejections { SECRET_KEY := "k" } { users := [] } 0 none (Or.inl rfl)

/-- Claim C3: for every token signed with the server's secret key,
unexpired at the time of the request, and whose sub claim is the id of
an existing user record (ids are nonempty, db.wf), get_current_user
succeeds and returns exactly that user's record. -/
theorem get_current_user_accepts (settings : Settings) (db : DB) (now : Nat)
    (claims : Claims) (e : Nat) (s : String) (user : User)
    (hwf : db.wf)
    (hexp : claims.exp = some e) (hnow : now < e)
    (hsub : claims.sub = some s)
    (huser : get_user_by_id db s = some user) :
    get_current_user settings db now
        (some (JwtToken.signed claims settings.SECRET_KEY)) =
      Except.ok user := by
  have hdec : jose_decode (JwtToken.signed claims settings.SECRET_KEY)
      settings.SECRET_KEY now = JoseResult.ok claims := by
    simp [jose_decode, hexp, hnow]
  have hid_eq : user.id = s := by
    have h2 := huser
    unfold get_user_by_id at h2
    have h3 := List.find?_some h2
    simpa using h3
  have hmem : user ∈ db.users := by
    have h2 := huser
    unfold get_user_by_id at h2
    exact List.mem_of_find?_eq_some h2
  have hsne : s ≠ "" := fun hs => hwf user hmem (by rw [hid_eq, hs])
  unfold get_current_user
  simp [hdec, hsub, hsne, huser]

/-- Concrete instantiation of get_current_user_accepts: a fresh token
for the sample user resolves to that user. -/
theorem get_current_user_accepts_witness :
    get_current_user { SECRET_KEY := "k" } sampleDB 0
        (some (JwtToken.signed
          { sub := some "u1", email := some "alice@example.com", exp := some 100 } "k")) =
      Except.ok aliceUser :=
  get_current_user_accepts { SECRET_KEY := "k" } sampleDB 0
    { sub := some "u1", email := some "alice@example.com", exp := some 100 }
    100 "u1" aliceUser (by decide) rfl (by decide) rfl (by decide)

end Key2Key

namespace Key2Key

/-- Claim C4: a token built by create_access_token at issue time with
lifetime T decodes successfully against a checking key exactly when the
key matches the signing secret and now is strictly before issue plus T;
in every other case, and in particular at the boundary instant now equal
to issue plus T and at every later time, verify_token returns the empty
result (an ordinary failure, not a crash). -/
theorem token_decode_iff (settings checker : Settings) (data : Claims)
    (issue T now : Nat) :
    verify_token checker now (create_access_token settings issue data (some T)) =
      (if checker.SECRET_KEY = settings.SECRET_KEY ∧ now < issue + T
       then some { sub := data.sub, email := data.email, exp := some (issue + T) }
       else none) := by
  unfold verify_token create_access_token jose_encode jose_decode
  by_cases hk : checker.SECRET_KEY = settings.SECRET_KEY
  · by_cases ht : now < issue + T
    · simp [hk, ht]
    · simp [hk, ht]
  · simp [hk, Ne.symm hk]

/-- Counterexample for claim C6: the codec collapses the two failure
causes. The first token is expired (jose raises ExpiredSignatureError),
the second is malformed (jose raises JWTError), yet decode_access_token
returns the very same error value for both, so the two causes are not
distinguishable at the codec level. -/
theorem decode_access_token_collapses_causes :
    jose_decode (JwtToken.signed { sub := none, email := none, exp := some 5 } "k") "k" 10 =
      JoseResult.expiredSignatureError ∧
    jose_decode (JwtToken.malformed "garbage") "k" 10 = JoseResult.jwtError ∧
    decode_access_token { SECRET_KEY := "k" } 10
        (JwtToken.signed { sub := none, email := none, exp := some 5 } "k") =
      decode_access_token { SECRET_KEY := "k" } 10 (JwtToken.malformed "garbage") := by
  refine ⟨?_, rfl, ?_⟩ <;> simp [jose_decode, decode_access_token]

/-- Claim C6 as amended: for every invalid token, whether expired or
with a bad signature or malformed, decode_access_token fails with one
uniform HTTP 401 error (detail Invalid token or token signature, with a
WWW-Authenticate Bearer header) rather than crashing; the two causes
produce identical results at the codec level. -/
theorem decode_access_token_uniform_error (settings : Settings) (now : Nat)
    (token : JwtToken)
    (h : (jose_decode token settings.SECRET_KEY now).isError = true) :
    decode_access_token settings now token =
      Except.error
        { status_code := 401
          detail := "Invalid token or token signature"
          www_authenticate := some "Bearer" } := by
  unfold decode_access_token
  cases hd : jose_decode token settings.SECRET_KEY now with
  | ok claims => rw [hd] at h; simp [JoseResult.isError] at h
  | expiredSignatureError => simp [hd]
  | jwtError => simp [hd]

/-- Concrete instantiation of decode_access_token_uniform_error at an
expired token. -/
theorem decode_access_token_uniform_error_witness :
    decode_access_token { SECRET_KEY := "k" } 10
        (JwtToken.signed { sub := none, email := none, exp := some 5 } "k") =
      Except.error
        { status_code := 401
          detail := "Invalid token or token signature"
          www_authenticate := some "Bearer" } :=
  decode_access_token_uniform_error { SECRET_KEY := "k" } 10
    (JwtToken.signed { sub := none, email := none, exp := some 5 } "k")
    (by simp [jose_decode, JoseResult.isError])

end Key2Key

namespace Key2Key

/-- Claim C7: every successful login_user call returns exactly the
triple of the freshly issued access token (carrying only the user's id
and email plus the expiry), token_type bearer, and the public UserAuth
summary holding only id, email, full_name, role and is_active. The
statement fully determines the success value from these non-secret
fields; no component of LoginResponse has type HashStr, so the stored
password_hash is never part of the returned value, and the failure
value of login_user is a fixed HTTPException that carries no user data
at all. -/
theorem login_user_success_shape (settings : Settings) (db : DB) (now : Nat)
    (email password : String) (r : LoginResponse)
    (h : login_user settings db now email password = Except.ok r) :
    ∃ user, authenticate_user db email password = some user ∧
      r.token_type = "bearer" ∧
      r.access_token =
        JwtToken.signed
          { sub := some user.id
            email := some user.email
            exp := some (now + ACCESS_TOKEN_EXPIRE_MINUTES * 60) }
          settings.SECRET_KEY ∧
      r.user =
        { id := user.id
          email := user.email
          full_name := user.full_name
          role := user.role
          is_active := user.verified } := by
  unfold login_user at h
  cases hauth : authenticate_user db email password with
  | none => rw [hauth] at h; simp at h
  | some user =>
    rw [hauth] at h
    simp only [Except.ok.injEq] at h
    subst h
    exact ⟨user, rfl, rfl, rfl, rfl⟩

/-- The response the sample login produces. -/
def loginResponseW : LoginResponse :=
  { access_token :=
      JwtToken.signed
        { sub := some "u1"
          email := some "alice@example.com"
          exp := some (0 + ACCESS_TOKEN_EXPIRE_MINUTES * 60) }
        "k"
    token_type := "bearer"
    user :=
      { id := "u1"
        email := "alice@example.com"
        full_name := "Alice A"
        role := "buyer"
        is_active := true } }

/-- Concrete instantiation of login_user_success_shape at a successful
sample login. -/
theorem login_user_success_shape_witness :
    ∃ user, authenticate_user sampleDB "alice@example.com" "secret123" = some user ∧
      loginResponseW.token_type = "bearer" ∧
      loginResponseW.access_token =
        JwtToken.signed
          { sub := some user.id
            email := some user.email
            exp := some (0 + ACCESS_TOKEN_EXPIRE_MINUTES * 60) }
          "k" ∧
      loginResponseW.user =
        { id := user.id
          email := user.email
          full_name := user.full_name
          role := user.role
          is_active := user.verified } :=
  login_user_success_shape { SECRET_KEY := "k" } sampleDB 0
    "alice@example.com" "secret123" loginResponseW (by rfl)

/-- Claim C10: the public summary of every successful login reports
is_active true: login_user copies is_active from the verified flag and
authenticate_user only succeeds for verified users. -/
theorem login_user_success_is_active (settings : Settings) (db : DB) (now : Nat)
    (email password : String) (r : LoginResponse)
    (h : login_user settings db now email password = Except.ok r) :
    r.user.is_active = true := by
  unfold login_user at h
  cases hauth : authenticate_user db email password with
  | none => rw [hauth] at h; simp at h
  | some user =>
    rw [hauth] at h
    simp only [Except.ok.injEq] at h
    subst h
    exact (authenticate_user_eq_some hauth).2.1

/-- Concrete instantiation of login_user_success_is_active at the
sample login. -/
theorem login_user_success_is_active_witness :
    loginResponseW.user.is_active = true :=
  login_user_success_is_active { SECRET_KEY := "k" } sampleDB 0
    "alice@example.com" "secret123" loginResponseW (by rfl)

end Key2Key
